import Mathlib

/-!
Verification of the capture/buffering core of the Voice-Recorder application
(`src/voice_recorder_advanced.py`), as a shallow embedding in Lean.

Audio samples are modelled as rationals (the Python code carries float32
samples; none of the verified properties depend on rounding of the sample
values themselves, only on their identity, ordering and 16-bit quantization).
A `Block` is one callback-delivered batch of interleaved sample values
(`indata.copy()` in the source).  The `Recorder` structure mirrors the
fields of the Python `Recorder` class: `frames` is the RecordingBuffer,
`q` the CaptureQueue (head = oldest element, i.e. FIFO front), `recording`
and `paused` the two state flags, `stream` whether an input stream is open.
The single `threading.Lock` only serialises flag access; the embedding is
the sequential interleaving semantics of the operations.
-/

namespace VoiceRecorder

abbrev Sample := ℚ

abbrev Block := List Sample

/-- State of the Python `Recorder` object (`Recorder.__init__`). -/
structure Recorder where
  samplerate : Nat
  channels : Nat
  frames : List Block
  q : List Block
  recording : Bool
  paused : Bool
  stream : Bool
  deriving DecidableEq

/-- `Recorder.__init__(samplerate, channels, chunk)`: empty buffer, empty
queue, not recording, not paused, no stream. -/
def initRecorder (samplerate channels : Nat) : Recorder :=
  { samplerate := samplerate, channels := channels, frames := [], q := [],
    recording := false, paused := false, stream := false }

/-- `Recorder._callback`: discards the block unless `recording ∧ ¬paused`,
otherwise pushes a copy onto the queue (`self.q.put(indata.copy())`). -/
def callbackStep (r : Recorder) (indata : Block) : Recorder :=
  if !r.recording || r.paused then r
  else { r with q := r.q ++ [indata] }

inductive StartError where
  | alreadyRecording
  deriving DecidableEq

/-- `Recorder.start`: refused (early `return`, surfaced as the
`AlreadyRecording` outcome of the spec's taxonomy, which classifies the
refusal as "no-op or explicit error") when already recording; otherwise
resets `frames` to `[]`, sets `recording := true`, `paused := false`,
and opens/starts the input stream.  Note the Python code does not touch
`self.q` here. -/
def startR (r : Recorder) : Option StartError × Recorder :=
  if r.recording then (some .alreadyRecording, r)
  else (none, { r with frames := [], recording := true, paused := false,
                       stream := true })

/-- The drain loop shared by `Recorder.stop` and
`Recorder.collect_from_queue`: `while not self.q.empty():
frames.append(self.q.get_nowait())`, counting the moved queue items. -/
def drainLoop : List Block → List Block → Nat → List Block × List Block × Nat
  | frames, [], moved => (frames, [], moved)
  | frames, b :: rest, moved => drainLoop (frames ++ [b]) rest (moved + 1)

/-- `Recorder.stop`: early `return` when not recording; otherwise clears
both flags, stops and closes the stream, then drains the queue into
`frames` without deleting existing frames. -/
def stopR (r : Recorder) : Recorder :=
  if r.recording then
    let r1 := { r with recording := false, paused := false, stream := false }
    let d := drainLoop r1.frames r1.q 0
    { r1 with frames := d.1, q := d.2.1 }
  else r

/-- `Recorder.pause`: sets `paused` only when recording. -/
def pauseR (r : Recorder) : Recorder :=
  if r.recording then { r with paused := true } else r

/-- `Recorder.resume`: clears `paused` only when recording. -/
def resumeR (r : Recorder) : Recorder :=
  if r.recording then { r with paused := false } else r

/-- `Recorder.collect_from_queue` (the consumer pump): drains every queued
block into `frames` unconditionally — the Python method performs no state
check — and returns the number of moved queue items. -/
def collect_from_queue (r : Recorder) : Recorder × Nat :=
  let d := drainLoop r.frames r.q 0
  ({ r with frames := d.1, q := d.2.1 }, d.2.2)

/-- `Recorder.get_combined`: concatenation of all buffered blocks
(`np.concatenate(self.frames)`, the empty array when `frames` is empty). -/
def get_combined (r : Recorder) : List Sample := r.frames.flatten

/-- The externally invokable operations on a `Recorder`, for trace-based
reachability: the four control methods, the periodic consumer pump, and a
callback delivery from the audio thread. -/
inductive Op where
  | start
  | stop
  | pause
  | resume
  | pump
  | callback (b : Block)

/-- One operation applied to the recorder state (`start` keeps the state
unchanged when it is refused, matching the early `return`). -/
def step (r : Recorder) : Op → Recorder
  | .start => (startR r).2
  | .stop => stopR r
  | .pause => pauseR r
  | .resume => resumeR r
  | .pump => (collect_from_queue r).1
  | .callback b => callbackStep r b

/-- Running a whole trace of operations. -/
def run (r : Recorder) (ops : List Op) : Recorder := ops.foldl step r

/-- A state is reachable when some trace of operations produces it from a
freshly constructed recorder. -/
def Reachable (s : Recorder) : Prop :=
  ∃ samplerate channels ops, run (initRecorder samplerate channels) ops = s

/-- The two structural invariants of the recorder: `paused` is set only
while `recording`, and the queue is empty whenever not recording (the stop
drain empties it and the callback gate blocks pushes). -/
def Inv (r : Recorder) : Prop :=
  (r.paused = true → r.recording = true) ∧ (r.recording = false → r.q = [])

-- Closed form of the drain loop: it appends the whole queue, in FIFO
-- order, to the buffer, and counts the moved items.
theorem drainLoop_eq (q : List Block) :
    ∀ frames moved, drainLoop frames q moved = (frames ++ q, [], moved + q.length) := by
  induction q with
  | nil => intro frames moved; simp [drainLoop]
  | cons b rest ih =>
    intro frames moved
    simp only [drainLoop, ih, List.append_assoc, List.singleton_append,
      List.length_cons, Prod.mk.injEq, true_and]
    omega

theorem collect_from_queue_eq (r : Recorder) :
    collect_from_queue r = ({ r with frames := r.frames ++ r.q, q := [] }, r.q.length) := by
  simp [collect_from_queue, drainLoop_eq]

theorem stopR_eq_of_recording (r : Recorder) (h : r.recording = true) :
    stopR r = { r with recording := false, paused := false, stream := false,
                       frames := r.frames ++ r.q, q := [] } := by
  simp [stopR, h, drainLoop_eq]

theorem stopR_eq_of_not_recording (r : Recorder) (h : r.recording = false) :
    stopR r = r := by
  simp [stopR, h]

theorem inv_init (samplerate channels : Nat) : Inv (initRecorder samplerate channels) := by
  constructor <;> simp [initRecorder]

theorem inv_step (r : Recorder) (op : Op) (h : Inv r) : Inv (step r op) := by
  obtain ⟨h1, h2⟩ := h
  cases op with
  | start => cases hrec : r.recording <;> simp_all [step, startR, Inv]
  | stop =>
    cases hrec : r.recording
    · rw [step, stopR_eq_of_not_recording r hrec]; exact ⟨h1, h2⟩
    · rw [step, stopR_eq_of_recording r hrec]; simp [Inv]
  | pause => cases hrec : r.recording <;> simp_all [step, pauseR, Inv]
  | resume => cases hrec : r.recording <;> simp_all [step, resumeR, Inv]
  | pump =>
    rw [step, collect_from_queue_eq]
    exact ⟨h1, fun _ => rfl⟩
  | callback b =>
    cases hrec : r.recording <;> cases hp : r.paused <;>
      simp_all [step, callbackStep, Inv]

theorem inv_run (r : Recorder) (ops : List Op) (h : Inv r) : Inv (run r ops) := by
  induction ops generalizing r with
  | nil => exact h
  | cons op rest ih => exact ih (step r op) (inv_step r op h)

theorem inv_reachable (s : Recorder) (h : Reachable s) : Inv s := by
  obtain ⟨samplerate, channels, ops, hrun⟩ := h
  rw [← hrun]
  exact inv_run _ ops (inv_init samplerate channels)

/-!
Export model.  `save_wav` delegates the PCM_16 serialization to
`soundfile.write` and `save_mp3` funnels the samples through a temporary
WAV file into the `pydub` encoder; both libraries are outside the
repository, so their PCM_16 quantization and the WAV header layout are
modelled from the spec.  The filesystem footprint of each export, which is
what the error-handling claims are about, is recorded as an explicit list
of operations.
-/

/-- Modelled from the spec: the PCM_16 quantization policy ("samples are
clamped to [-1.0, 1.0] before scaling to the 16-bit range to avoid
wraparound on clipped input") applied by the missing `soundfile.write`
code — clamp, scale to the signed 16-bit range and round to the nearest
integer (half up, `⌊y + 1/2⌋`). -/
def quantize16 (x : Sample) : Int :=
  ⌊max (-1) (min 1 x) * 32767 + 1 / 2⌋

/-- Little-endian byte pair of a signed 16-bit value (two's complement). -/
def int16ToBytes (v : Int) : List Nat :=
  let u := (v % 65536).toNat
  [u % 256, u / 256]

/-- Reading one little-endian signed 16-bit value back from its bytes. -/
def bytesToInt16 (b0 b1 : Nat) : Int :=
  let u := b0 + 256 * b1
  if u < 32768 then (u : Int) else (u : Int) - 65536

/-- The PCM payload: every sample quantized to 16 bits and serialized as
two little-endian bytes, in buffer order. -/
def pcmBytes : List Sample → List Nat
  | [] => []
  | x :: rest => int16ToBytes (quantize16 x) ++ pcmBytes rest

/-- Decoding a PCM_16 payload back into 16-bit sample values. -/
def decodePcm : List Nat → List Int
  | b0 :: b1 :: rest => bytesToInt16 b0 b1 :: decodePcm rest
  | _ => []

/-- Modelled from the spec: the header fields and payload of the PCM
container written by the missing `soundfile.write(..., subtype='PCM_16')`
code — format tag, channel count, sample rate, bits-per-sample = 16,
byte rate, block align, declared data size, payload. -/
structure WavFile where
  formatTag : Nat
  numChannels : Nat
  sampleRate : Nat
  bitsPerSample : Nat
  byteRate : Nat
  blockAlign : Nat
  dataSize : Nat
  data : List Nat
  deriving DecidableEq

/-- Modelled from the spec: `soundfile.write(filepath, data, samplerate,
subtype='PCM_16')`, a deterministic function of the samples and format. -/
def writeWavPCM16 (samplerate channels : Nat) (sams : List Sample) : WavFile :=
  { formatTag := 1, numChannels := channels, sampleRate := samplerate,
    bitsPerSample := 16, byteRate := samplerate * 2 * channels,
    blockAlign := 2 * channels, dataSize := (pcmBytes sams).length,
    data := pcmBytes sams }

inductive ExportError where
  | emptyBuffer
  deriving DecidableEq

/-- Filesystem operations an export can perform: writing a WAV file at a
path, invoking the lossy encoder with a destination path it writes to
directly (`audio.export(filepath, format="mp3")`), unlinking a path, and
renaming a path onto another (in the vocabulary so its absence is
expressible; the source never performs one). -/
inductive FsOp where
  | writeWav (path : String) (file : WavFile)
  | encodeTo (path : String)
  | unlink (path : String)
  | renameTo (src dst : String)
  deriving DecidableEq

/-- Whether an effect list renames anything onto the given destination. -/
def renamesOnto (ops : List FsOp) (dst : String) : Bool :=
  ops.any fun e =>
    match e with
    | .renameTo _ d => d = dst
    | _ => false

/-- `Recorder.save_wav`: raises `RuntimeError("No audio to save")` — the
spec's `EmptyBuffer` — when the combined data has zero samples, before any
file is touched; otherwise writes the PCM_16 container at `path`. -/
def save_wav (r : Recorder) (path : String) : List FsOp × Option ExportError :=
  let data := get_combined r
  if data.length = 0 then ([], some .emptyBuffer)
  else ([.writeWav path (writeWavPCM16 r.samplerate r.channels data)], none)

/-- `Recorder.save_mp3`: raises the same `EmptyBuffer` error on zero
samples before touching any file; otherwise writes the combined data as a
PCM_16 WAV at the fresh `NamedTemporaryFile` path `tmpPath`, hands the
destination `path` directly to the lossy encoder
(`audio.export(filepath, format="mp3")`) and unlinks the temporary WAV. -/
def save_mp3 (r : Recorder) (path tmpPath : String) : List FsOp × Option ExportError :=
  let data := get_combined r
  if data.length = 0 then ([], some .emptyBuffer)
  else ([.writeWav tmpPath (writeWavPCM16 r.samplerate r.channels data),
         .encodeTo path, .unlink tmpPath], none)

-- The quantized value always lies in the signed 16-bit range.
theorem quantize16_mem (x : Sample) :
    -32768 ≤ quantize16 x ∧ quantize16 x ≤ 32767 := by
  have hclamp1 : max (-1 : ℚ) (min 1 x) ≤ 1 :=
    max_le (by norm_num) (min_le_left _ _)
  have hclamp2 : (-1 : ℚ) ≤ max (-1) (min 1 x) := le_max_left _ _
  have hub : max (-1 : ℚ) (min 1 x) * 32767 ≤ 32767 := by nlinarith
  have hlb : (-32767 : ℚ) ≤ max (-1) (min 1 x) * 32767 := by nlinarith
  have hf1 : (quantize16 x : ℚ) ≤ max (-1 : ℚ) (min 1 x) * 32767 + 1 / 2 :=
    Int.floor_le _
  have hf2 : max (-1 : ℚ) (min 1 x) * 32767 + 1 / 2 < (quantize16 x : ℚ) + 1 :=
    Int.lt_floor_add_one _
  constructor
  · have h2 : (-32768 : ℚ) < (quantize16 x : ℚ) := by linarith
    exact_mod_cast h2.le
  · have h2 : (quantize16 x : ℚ) < 32768 := by linarith
    have h3 : quantize16 x < 32768 := by exact_mod_cast h2
    omega

-- Round trip of one signed 16-bit value through its little-endian bytes.
theorem bytesToInt16_int16ToBytes (v : Int) (h1 : -32768 ≤ v) (h2 : v ≤ 32767) :
    bytesToInt16 ((v % 65536).toNat % 256) ((v % 65536).toNat / 256) = v := by
  simp only [bytesToInt16]
  split <;> omega

theorem pcmBytes_length (sams : List Sample) :
    (pcmBytes sams).length = 2 * sams.length := by
  induction sams with
  | nil => rfl
  | cons x rest ih =>
    simp [pcmBytes, int16ToBytes, ih]
    omega

theorem decodePcm_pcmBytes (sams : List Sample) :
    decodePcm (pcmBytes sams) = sams.map quantize16 := by
  induction sams with
  | nil => rfl
  | cons x rest ih =>
    obtain ⟨hlb, hub⟩ := quantize16_mem x
    have hx := bytesToInt16_int16ToBytes (quantize16 x) hlb hub
    simp [pcmBytes, int16ToBytes, decodePcm, ih, hx]

-- Delivering a list of blocks while recording un-paused enqueues exactly
-- those blocks, at the tail, in delivery order, and changes nothing else.
theorem run_callbacks (s : Recorder) (blocks : List Block)
    (h1 : s.recording = true) (h2 : s.paused = false) :
    run s (blocks.map Op.callback) = { s with q := s.q ++ blocks } := by
  induction blocks generalizing s with
  | nil => simp [run]
  | cons b rest ih =>
    have hstep : step s (Op.callback b) = { s with q := s.q ++ [b] } := by
      simp [step, callbackStep, h1, h2]
    rw [run, List.map_cons, List.foldl_cons, hstep]
    rw [show List.foldl step { s with q := s.q ++ [b] } (rest.map Op.callback)
          = run { s with q := s.q ++ [b] } (rest.map Op.callback) from rfl]
    rw [ih { s with q := s.q ++ [b] } h1 h2]
    simp

/-- Claim C2: calling `start()` while already recording is refused with
the `AlreadyRecording` outcome, the state — and in particular the
RecordingBuffer accumulated since the first `start()` — is left exactly
as it was. -/
theorem c2_start_while_recording (r : Recorder) (h : r.recording = true) :
    startR r = (some StartError.alreadyRecording, r) ∧
    (startR r).2.frames = r.frames := by
  constructor <;> simp [startR, h]

theorem c2_start_while_recording_witness :
    (run (initRecorder 44100 1) [Op.start, Op.callback [(1 : ℚ)], Op.pump]).recording = true ∧
    (startR (run (initRecorder 44100 1) [Op.start, Op.callback [(1 : ℚ)], Op.pump])
        = (some StartError.alreadyRecording,
           run (initRecorder 44100 1) [Op.start, Op.callback [(1 : ℚ)], Op.pump]) ∧
      (startR (run (initRecorder 44100 1) [Op.start, Op.callback [(1 : ℚ)], Op.pump])).2.frames
        = (run (initRecorder 44100 1) [Op.start, Op.callback [(1 : ℚ)], Op.pump]).frames) :=
  ⟨rfl, c2_start_while_recording _ rfl⟩

/-- Claim C4: both exports fail with `EmptyBuffer` on a buffer with zero
samples and perform no filesystem operation, in particular no write at the
destination path. -/
theorem c4_export_empty_buffer (r : Recorder) (path tmpPath : String)
    (h : (get_combined r).length = 0) :
    save_wav r path = ([], some ExportError.emptyBuffer) ∧
    save_mp3 r path tmpPath = ([], some ExportError.emptyBuffer) := by
  constructor <;> simp [save_wav, save_mp3, h]

theorem c4_export_empty_buffer_witness :
    (get_combined (initRecorder 44100 1)).length = 0 ∧
    (save_wav (initRecorder 44100 1) "out.wav" = ([], some ExportError.emptyBuffer) ∧
     save_mp3 (initRecorder 44100 1) "out.mp3" "tmp.wav" = ([], some ExportError.emptyBuffer)) :=
  ⟨rfl, c4_export_empty_buffer _ "out.wav" "tmp.wav" rfl⟩

/-- Claim C5: `stop()` is idempotent — a `stop()` in a non-recording
state is a no-op on the whole state (no drain, no append, and it reports
success since the Python method just returns), while the first `stop()`
performs the final queue drain, appending every queued block before
completing with an empty queue. -/
theorem c5_stop_idempotent (s t : Recorder)
    (hs : s.recording = true) (ht : t.recording = false) :
    stopR (stopR s) = stopR s ∧
    stopR t = t ∧
    (stopR s).frames = s.frames ++ s.q ∧
    (stopR s).q = [] := by
  have h1 := stopR_eq_of_recording s hs
  refine ⟨?_, stopR_eq_of_not_recording t ht, by rw [h1], by rw [h1]⟩
  rw [h1, stopR_eq_of_not_recording _ rfl]

theorem c5_stop_idempotent_witness :
    (run (initRecorder 44100 1) [Op.start, Op.callback [(1 : ℚ)]]).recording = true ∧
    (initRecorder 44100 1).recording = false ∧
    (stopR (stopR (run (initRecorder 44100 1) [Op.start, Op.callback [(1 : ℚ)]]))
        = stopR (run (initRecorder 44100 1) [Op.start, Op.callback [(1 : ℚ)]]) ∧
     stopR (initRecorder 44100 1) = initRecorder 44100 1 ∧
     (stopR (run (initRecorder 44100 1) [Op.start, Op.callback [(1 : ℚ)]])).frames
        = (run (initRecorder 44100 1) [Op.start, Op.callback [(1 : ℚ)]]).frames
            ++ (run (initRecorder 44100 1) [Op.start, Op.callback [(1 : ℚ)]]).q ∧
     (stopR (run (initRecorder 44100 1) [Op.start, Op.callback [(1 : ℚ)]])).q = []) :=
  ⟨rfl, rfl, c5_stop_idempotent _ _ rfl rfl⟩

/-- Claim C9 as amended: every `collect_from_queue` invocation returns the
number of newly appended blocks (queue items moved), i.e. the growth of
the frames list — not the newly appended sample count. -/
theorem c9_pump_count (r : Recorder) :
    (collect_from_queue r).2 = r.q.length ∧
    (collect_from_queue r).1.frames.length
        = r.frames.length + (collect_from_queue r).2 := by
  rw [collect_from_queue_eq]
  simp

/-- Claim C9 fails as stated: after one delivered block holding two
samples, the pump returns 1 (the moved block count) although it has newly
appended two samples to the RecordingBuffer. -/
theorem c9_pump_returns_block_count :
    (collect_from_queue (run (initRecorder 44100 1)
        [Op.start, Op.callback [(0 : ℚ), 1]])).2 = 1 ∧
    (get_combined (collect_from_queue (run (initRecorder 44100 1)
        [Op.start, Op.callback [(0 : ℚ), 1]])).1).length = 2 ∧
    (get_combined (run (initRecorder 44100 1)
        [Op.start, Op.callback [(0 : ℚ), 1]])).length = 0 := by
  decide

/-- Claim C10: the implicit flag invariant — `paused` implies `recording`
in every reachable state, so a recorder that is Idle or Stopped is never
left paused. -/
theorem c10_paused_implies_recording (s : Recorder)
    (h1 : Reachable s) (h2 : s.paused = true) : s.recording = true :=
  (inv_reachable s h1).1 h2

theorem c10_paused_implies_recording_witness :
    Reachable (run (initRecorder 44100 1) [Op.start, Op.pause]) ∧
    (run (initRecorder 44100 1) [Op.start, Op.pause]).paused = true ∧
    (run (initRecorder 44100 1) [Op.start, Op.pause]).recording = true :=
  ⟨⟨44100, 1, [Op.start, Op.pause], rfl⟩, rfl,
   c10_paused_implies_recording _ ⟨44100, 1, [Op.start, Op.pause], rfl⟩ rfl⟩

/-- Claim C1 as amended: the RecordingBuffer length is monotonically
non-decreasing under every operation while Recording; the pump leaves a
reachable Idle/Stopped recorder entirely unchanged (its queue is empty);
and blocks are gated into the queue by the callback only while Recording
un-paused — but the pump itself performs no state check, so blocks
enqueued before a `pause()` are still appended while Paused. -/
theorem c1_buffer_mutation (s : Recorder) (op : Op) (b : Block)
    (h : Reachable s) :
    (s.recording = true → s.frames.length ≤ (step s op).frames.length) ∧
    (s.recording = false → step s Op.pump = s) ∧
    (s.recording = false ∨ s.paused = true → (callbackStep s b).q = s.q) := by
  obtain ⟨h1, h2⟩ := inv_reachable s h
  refine ⟨?_, ?_, ?_⟩
  · intro hrec
    cases op with
    | start => simp [step, startR, hrec]
    | stop => rw [step, stopR_eq_of_recording s hrec]; simp
    | pause => simp [step, pauseR, hrec]
    | resume => simp [step, resumeR, hrec]
    | pump => rw [step, collect_from_queue_eq]; simp
    | callback b2 => cases hp : s.paused <;> simp [step, callbackStep, hrec, hp]
  · intro hrec
    have hq := h2 hrec
    rw [step, collect_from_queue_eq]
    cases s with
    | mk samplerate channels frames q recording paused stream => simp_all
  · intro hcase
    rcases hcase with hrec | hp
    · simp [callbackStep, hrec]
    · simp [callbackStep, hp]

theorem c1_buffer_mutation_witness :
    Reachable (run (initRecorder 44100 1) [Op.start]) ∧
    (((run (initRecorder 44100 1) [Op.start]).recording = true →
        (run (initRecorder 44100 1) [Op.start]).frames.length
          ≤ (step (run (initRecorder 44100 1) [Op.start]) Op.stop).frames.length) ∧
     ((run (initRecorder 44100 1) [Op.start]).recording = false →
        step (run (initRecorder 44100 1) [Op.start]) Op.pump
          = run (initRecorder 44100 1) [Op.start]) ∧
     ((run (initRecorder 44100 1) [Op.start]).recording = false ∨
        (run (initRecorder 44100 1) [Op.start]).paused = true →
        (callbackStep (run (initRecorder 44100 1) [Op.start]) [(1 : ℚ)]).q
          = (run (initRecorder 44100 1) [Op.start]).q)) :=
  ⟨⟨44100, 1, [Op.start], rfl⟩,
   c1_buffer_mutation _ Op.stop [(1 : ℚ)] ⟨44100, 1, [Op.start], rfl⟩⟩

/-- Claim C1 fails as stated: deliver one block while Recording, then
`pause()` — the state is Paused with an empty RecordingBuffer, yet the
next pump appends the queued block, growing the buffer while Paused
(`collect_from_queue` performs no state check). -/
theorem c1_pump_appends_while_paused :
    (run (initRecorder 44100 1) [Op.start, Op.callback [(1 : ℚ)], Op.pause]).recording
        = true ∧
    (run (initRecorder 44100 1) [Op.start, Op.callback [(1 : ℚ)], Op.pause]).paused
        = true ∧
    (run (initRecorder 44100 1) [Op.start, Op.callback [(1 : ℚ)], Op.pause]).frames.length
        = 0 ∧
    (step (run (initRecorder 44100 1) [Op.start, Op.callback [(1 : ℚ)], Op.pause])
        Op.pump).frames.length = 1 := by
  decide

/-- Claim C3: blocks delivered while Recording are enqueued in arrival
order, and a drain — the pump or the final drain in `stop()` — appends
exactly the queued blocks to the RecordingBuffer in that FIFO order,
reporting the moved count; temporal order of captured audio is
preserved. -/
theorem c3_fifo_drain (s : Recorder) (blocks : List Block)
    (h1 : s.recording = true) (h2 : s.paused = false) :
    (collect_from_queue (run s (blocks.map Op.callback))).1.frames
        = s.frames ++ s.q ++ blocks ∧
    (collect_from_queue (run s (blocks.map Op.callback))).2
        = s.q.length + blocks.length ∧
    (stopR (run s (blocks.map Op.callback))).frames
        = s.frames ++ s.q ++ blocks := by
  rw [run_callbacks s blocks h1 h2]
  refine ⟨?_, ?_, ?_⟩
  · rw [collect_from_queue_eq]
    simp
  · rw [collect_from_queue_eq]
    simp
  · rw [stopR_eq_of_recording { s with q := s.q ++ blocks } h1]
    simp

theorem c3_fifo_drain_witness :
    (run (initRecorder 44100 1) [Op.start]).recording = true ∧
    (run (initRecorder 44100 1) [Op.start]).paused = false ∧
    ((collect_from_queue (run (run (initRecorder 44100 1) [Op.start])
         ([[(1 : ℚ)], [(2 : ℚ)]].map Op.callback))).1.frames
        = (run (initRecorder 44100 1) [Op.start]).frames
            ++ (run (initRecorder 44100 1) [Op.start]).q ++ [[(1 : ℚ)], [(2 : ℚ)]] ∧
     (collect_from_queue (run (run (initRecorder 44100 1) [Op.start])
         ([[(1 : ℚ)], [(2 : ℚ)]].map Op.callback))).2
        = (run (initRecorder 44100 1) [Op.start]).q.length + [[(1 : ℚ)], [(2 : ℚ)]].length ∧
     (stopR (run (run (initRecorder 44100 1) [Op.start])
         ([[(1 : ℚ)], [(2 : ℚ)]].map Op.callback))).frames
        = (run (initRecorder 44100 1) [Op.start]).frames
            ++ (run (initRecorder 44100 1) [Op.start]).q ++ [[(1 : ℚ)], [(2 : ℚ)]]) :=
  ⟨rfl, rfl, c3_fifo_drain _ [[(1 : ℚ)], [(2 : ℚ)]] rfl rfl⟩

/-- Claim C6: a successful `start()` from a reachable Idle/Stopped state
succeeds, resets the RecordingBuffer to empty and leaves the CaptureQueue
empty (the stop drain and the callback gate keep it empty in every
reachable non-recording state, and `start` does not repopulate it), so no
block delivered before this `start` can appear in the new recording. -/
theorem c6_start_resets (s : Recorder) (h1 : Reachable s)
    (h2 : s.recording = false) :
    (startR s).1 = none ∧
    (startR s).2.frames = [] ∧
    (startR s).2.q = [] ∧
    (startR s).2.recording = true ∧
    (startR s).2.paused = false := by
  obtain ⟨hp, hq⟩ := inv_reachable s h1
  simp [startR, h2, hq h2]

theorem c6_start_resets_witness :
    Reachable (run (initRecorder 44100 1) [Op.start, Op.callback [(1 : ℚ)], Op.stop]) ∧
    (run (initRecorder 44100 1) [Op.start, Op.callback [(1 : ℚ)], Op.stop]).recording
        = false ∧
    ((startR (run (initRecorder 44100 1) [Op.start, Op.callback [(1 : ℚ)], Op.stop])).1
        = none ∧
     (startR (run (initRecorder 44100 1) [Op.start, Op.callback [(1 : ℚ)], Op.stop])).2.frames
        = [] ∧
     (startR (run (initRecorder 44100 1) [Op.start, Op.callback [(1 : ℚ)], Op.stop])).2.q
        = [] ∧
     (startR (run (initRecorder 44100 1) [Op.start, Op.callback [(1 : ℚ)], Op.stop])).2.recording
        = true ∧
     (startR (run (initRecorder 44100 1) [Op.start, Op.callback [(1 : ℚ)], Op.stop])).2.paused
        = false) :=
  ⟨⟨44100, 1, [Op.start, Op.callback [(1 : ℚ)], Op.stop], rfl⟩, rfl,
   c6_start_resets _ ⟨44100, 1, [Op.start, Op.callback [(1 : ℚ)], Op.stop], rfl⟩ rfl⟩

/-- Claim C7 as amended: on a non-empty buffer, `save_mp3` writes the
intermediate WAV at a temporary path and unlinks it, but hands the
destination path directly to the lossy encoder; no effect renames
anything onto the destination — there is no temporary-output-plus-rename
step in the code, so the encoder operates on the final path itself. -/
theorem c7_no_rename_step (r : Recorder) (path tmpPath : String)
    (h : (get_combined r).length ≠ 0) :
    FsOp.encodeTo path ∈ (save_mp3 r path tmpPath).1 ∧
    renamesOnto (save_mp3 r path tmpPath).1 path = false ∧
    FsOp.writeWav tmpPath (writeWavPCM16 r.samplerate r.channels (get_combined r))
        ∈ (save_mp3 r path tmpPath).1 ∧
    FsOp.unlink tmpPath ∈ (save_mp3 r path tmpPath).1 ∧
    (save_mp3 r path tmpPath).2 = none := by
  simp [save_mp3, h, renamesOnto]

theorem c7_no_rename_step_witness :
    (get_combined (run (initRecorder 44100 1) [Op.start, Op.callback [(0 : ℚ)], Op.stop])).length
        ≠ 0 ∧
    (FsOp.encodeTo "out.mp3"
        ∈ (save_mp3 (run (initRecorder 44100 1) [Op.start, Op.callback [(0 : ℚ)], Op.stop])
            "out.mp3" "tmp9.wav").1 ∧
     renamesOnto (save_mp3 (run (initRecorder 44100 1)
            [Op.start, Op.callback [(0 : ℚ)], Op.stop]) "out.mp3" "tmp9.wav").1 "out.mp3"
        = false ∧
     FsOp.writeWav "tmp9.wav"
          (writeWavPCM16
            (run (initRecorder 44100 1) [Op.start, Op.callback [(0 : ℚ)], Op.stop]).samplerate
            (run (initRecorder 44100 1) [Op.start, Op.callback [(0 : ℚ)], Op.stop]).channels
            (get_combined (run (initRecorder 44100 1) [Op.start, Op.callback [(0 : ℚ)], Op.stop])))
        ∈ (save_mp3 (run (initRecorder 44100 1) [Op.start, Op.callback [(0 : ℚ)], Op.stop])
            "out.mp3" "tmp9.wav").1 ∧
     FsOp.unlink "tmp9.wav"
        ∈ (save_mp3 (run (initRecorder 44100 1) [Op.start, Op.callback [(0 : ℚ)], Op.stop])
            "out.mp3" "tmp9.wav").1 ∧
     (save_mp3 (run (initRecorder 44100 1) [Op.start, Op.callback [(0 : ℚ)], Op.stop])
         "out.mp3" "tmp9.wav").2 = none) :=
  ⟨by decide, c7_no_rename_step _ "out.mp3" "tmp9.wav" (by decide)⟩

/-- Claim C7 fails as stated: on a successful one-sample export the whole
effect trace is — intermediate WAV to the temporary path, encoder invoked
directly on the destination, temporary unlinked — and no operation
renames anything onto the destination path, so the encoder output is not
written to a temporary path and renamed on success. -/
theorem c7_encoder_writes_destination_directly :
    save_mp3 (run (initRecorder 44100 1) [Op.start, Op.callback [(0 : ℚ)], Op.stop])
        "out.mp3" "tmpXYZ.wav"
      = ([FsOp.writeWav "tmpXYZ.wav" (writeWavPCM16 44100 1 [0]),
          FsOp.encodeTo "out.mp3", FsOp.unlink "tmpXYZ.wav"], none) ∧
    renamesOnto (save_mp3 (run (initRecorder 44100 1)
        [Op.start, Op.callback [(0 : ℚ)], Op.stop]) "out.mp3" "tmpXYZ.wav").1 "out.mp3"
      = false := by
  have hcomb : get_combined (run (initRecorder 44100 1)
      [Op.start, Op.callback [(0 : ℚ)], Op.stop]) = [0] := rfl
  have hsr : (run (initRecorder 44100 1)
      [Op.start, Op.callback [(0 : ℚ)], Op.stop]).samplerate = 44100 := rfl
  have hch : (run (initRecorder 44100 1)
      [Op.start, Op.callback [(0 : ℚ)], Op.stop]).channels = 1 := rfl
  constructor <;> simp [save_mp3, hcomb, hsr, hch, renamesOnto]

/-- Claim C8: `save_wav` on a non-empty buffer of N sample frames over
`channels` channels is a deterministic function of the samples and format
that writes exactly one PCM file at the given path, whose header declares
bits-per-sample 16, the capture channel count and sample rate, and a data
size of `2*N*channels` bytes, and whose decoded payload is exactly the
16-bit quantization of the original sample values. -/
theorem c8_wav_export (r : Recorder) (path : String) (N : Nat)
    (h1 : (get_combined r).length = N * r.channels)
    (h2 : (get_combined r).length ≠ 0) :
    save_wav r path
      = ([FsOp.writeWav path (writeWavPCM16 r.samplerate r.channels (get_combined r))],
         none) ∧
    (writeWavPCM16 r.samplerate r.channels (get_combined r)).bitsPerSample = 16 ∧
    (writeWavPCM16 r.samplerate r.channels (get_combined r)).formatTag = 1 ∧
    (writeWavPCM16 r.samplerate r.channels (get_combined r)).numChannels = r.channels ∧
    (writeWavPCM16 r.samplerate r.channels (get_combined r)).sampleRate = r.samplerate ∧
    (writeWavPCM16 r.samplerate r.channels (get_combined r)).dataSize
        = 2 * N * r.channels ∧
    decodePcm (writeWavPCM16 r.samplerate r.channels (get_combined r)).data
        = (get_combined r).map quantize16 := by
  refine ⟨by simp [save_wav, h2], rfl, rfl, rfl, rfl, ?_, decodePcm_pcmBytes _⟩
  show (pcmBytes (get_combined r)).length = 2 * N * r.channels
  rw [pcmBytes_length, h1, Nat.mul_assoc]

theorem c8_wav_export_witness :
    (get_combined (run (initRecorder 44100 1)
        [Op.start, Op.callback [(0 : ℚ), 1], Op.stop])).length = 2 * 1 ∧
    (get_combined (run (initRecorder 44100 1)
        [Op.start, Op.callback [(0 : ℚ), 1], Op.stop])).length ≠ 0 ∧
    (save_wav (run (initRecorder 44100 1) [Op.start, Op.callback [(0 : ℚ), 1], Op.stop])
        "out.wav"
      = ([FsOp.writeWav "out.wav"
            (writeWavPCM16
              (run (initRecorder 44100 1) [Op.start, Op.callback [(0 : ℚ), 1], Op.stop]).samplerate
              (run (initRecorder 44100 1) [Op.start, Op.callback [(0 : ℚ), 1], Op.stop]).channels
              (get_combined (run (initRecorder 44100 1)
                [Op.start, Op.callback [(0 : ℚ), 1], Op.stop])))], none) ∧
     (writeWavPCM16
        (run (initRecorder 44100 1) [Op.start, Op.callback [(0 : ℚ), 1], Op.stop]).samplerate
        (run (initRecorder 44100 1) [Op.start, Op.callback [(0 : ℚ), 1], Op.stop]).channels
        (get_combined (run (initRecorder 44100 1)
          [Op.start, Op.callback [(0 : ℚ), 1], Op.stop]))).bitsPerSample = 16 ∧
     (writeWavPCM16
        (run (initRecorder 44100 1) [Op.start, Op.callback [(0 : ℚ), 1], Op.stop]).samplerate
        (run (initRecorder 44100 1) [Op.start, Op.callback [(0 : ℚ), 1], Op.stop]).channels
        (get_combined (run (initRecorder 44100 1)
          [Op.start, Op.callback [(0 : ℚ), 1], Op.stop]))).formatTag = 1 ∧
     (writeWavPCM16
        (run (initRecorder 44100 1) [Op.start, Op.callback [(0 : ℚ), 1], Op.stop]).samplerate
        (run (initRecorder 44100 1) [Op.start, Op.callback [(0 : ℚ), 1], Op.stop]).channels
        (get_combined (run (initRecorder 44100 1)
          [Op.start, Op.callback [(0 : ℚ), 1], Op.stop]))).numChannels
        = (run (initRecorder 44100 1) [Op.start, Op.callback [(0 : ℚ), 1], Op.stop]).channels ∧
     (writeWavPCM16
        (run (initRecorder 44100 1) [Op.start, Op.callback [(0 : ℚ), 1], Op.stop]).samplerate
        (run (initRecorder 44100 1) [Op.start, Op.callback [(0 : ℚ), 1], Op.stop]).channels
        (get_combined (run (initRecorder 44100 1)
          [Op.start, Op.callback [(0 : ℚ), 1], Op.stop]))).sampleRate
        = (run (initRecorder 44100 1) [Op.start, Op.callback [(0 : ℚ), 1], Op.stop]).samplerate ∧
     (writeWavPCM16
        (run (initRecorder 44100 1) [Op.start, Op.callback [(0 : ℚ), 1], Op.stop]).samplerate
        (run (initRecorder 44100 1) [Op.start, Op.callback [(0 : ℚ), 1], Op.stop]).channels
        (get_combined (run (initRecorder 44100 1)
          [Op.start, Op.callback [(0 : ℚ), 1], Op.stop]))).dataSize
        = 2 * 2 * (run (initRecorder 44100 1) [Op.start, Op.callback [(0 : ℚ), 1], Op.stop]).channels ∧
     decodePcm (writeWavPCM16
        (run (initRecorder 44100 1) [Op.start, Op.callback [(0 : ℚ), 1], Op.stop]).samplerate
        (run (initRecorder 44100 1) [Op.start, Op.callback [(0 : ℚ), 1], Op.stop]).channels
        (get_combined (run (initRecorder 44100 1)
          [Op.start, Op.callback [(0 : ℚ), 1], Op.stop]))).data
        = (get_combined (run (initRecorder 44100 1)
            [Op.start, Op.callback [(0 : ℚ), 1], Op.stop])).map quantize16) :=
  ⟨rfl, by decide, c8_wav_export _ "out.wav" 2 rfl (by decide)⟩

end VoiceRecorder
